import Mathlib

/-! GoAzam: the bank checkout operation.

A shallow embedding of `BankCheckout` (bankcheckout.go) and of the parts of the
Go standard library whose behaviour the function depends on: the reflective
field scan, `fmt.Errorf`, `http.NewRequest`, `http.Header.Set`, the JSON stream
decoder's handling of an input without a value and of the literal `null`.

Library calls whose result is not determined by the function itself
(`json.Marshal`, URL parsing, the HTTP round trip, the JSON parser on a
non-trivial document) are taken from an `Env` value.
-/

set_option autoImplicit false
set_option linter.dupNamespace false

namespace GoAzam

/-! ## Data model -/

/-- The nested optional data of a payload. Its declaration is not in
bankcheckout.go; the two fields are the ones example/main.go assigns. -/
structure AdditionalProperties where
  Property1 : String
  Property2 : String
  deriving DecidableEq, Repr

/-- Payload to send to the bank checkout endpoint, fields in declaration order. -/
structure BankCheckoutPayload where
  Amount : String
  CurrencyCode : String
  MerchantAccountNumber : String
  MerchantMobileNumber : String
  MerchantName : String
  OTP : String
  Provider : String
  ReferenceID : String
  AdditionalProperties : AdditionalProperties
  deriving DecidableEq, Repr

/-- Reference ID of the transaction. -/
structure ReferenceID where
  ReferenceID : String
  deriving DecidableEq, Repr

/-- List of properties. -/
structure Properties where
  Properties : ReferenceID
  deriving DecidableEq, Repr

/-- Data received from the server after a successful transaction. -/
structure BankCheckoutResponse where
  Success : Bool
  Message : String
  Data : Properties
  deriving DecidableEq, Repr

/-- The session context. Its declaration is not in bankcheckout.go; these are
the three fields `BankCheckout` reads. -/
structure APICONTEXT where
  BaseURL : String
  Bearer : String
  token : String
  deriving DecidableEq, Repr

/-- Go error values, as far as `BankCheckout` can tell them apart. -/
inductive Error where
  /-- The sentinel `io.EOF`. -/
  | EOF
  /-- An error made by `fmt.Errorf` without `%w` (or `errors.New`). -/
  | errorString (s : String)
  /-- An error made by `fmt.Errorf` with one `%w` operand. -/
  | wrapError (msg : String) (err : Error)
  /-- An error value produced inside a library (net/url, net/http, io,
  encoding/json) that is not `io.EOF`, identified by its text. -/
  | external (msg : String)
  deriving DecidableEq, Repr

/-- The `Error()` method of an error value. -/
def Error.Error : Error → String
  | .EOF => "EOF"
  | .errorString s => s
  | .wrapError msg _ => msg
  | .external msg => msg

/-! ## reflect: the field scan -/

/-- A `reflect.Value` for a struct field, as far as `Value.String` reads it. -/
inductive Value where
  /-- A field of kind String. -/
  | string (s : String)
  /-- A field of another kind, of the type named `typeName`. -/
  | other (typeName : String)
  deriving DecidableEq, Repr

/-- The method `reflect.Value.String`: the string itself for kind String, and
the placeholder `<T Value>` for a value of any other type `T`. -/
def Value.String : Value → String
  | .string s => s
  | .other typeName => "<" ++ typeName ++ " Value>"

/-- The pairs `(v.Type().Field(i).Name, v.Field(i))` for `i` from 0 to
`v.NumField() - 1`, where `v := reflect.ValueOf(bankPayload)`. -/
def reflectFields (p : BankCheckoutPayload) : List (String × Value) :=
  [ ("Amount", .string p.Amount),
    ("CurrencyCode", .string p.CurrencyCode),
    ("MerchantAccountNumber", .string p.MerchantAccountNumber),
    ("MerchantMobileNumber", .string p.MerchantMobileNumber),
    ("MerchantName", .string p.MerchantName),
    ("OTP", .string p.OTP),
    ("Provider", .string p.Provider),
    ("ReferenceID", .string p.ReferenceID),
    ("AdditionalProperties", .other "GoAzam.AdditionalProperties") ]

/-- The loop of lines 71-75 over the remaining fields: the error of the first
field whose `String()` is empty. -/
def fieldScan : List (String × Value) → Option Error
  | [] => none
  | (name, v) :: rest =>
    if v.String = "" then
      some (.errorString ("(Bank Checkout) Error: Field '" ++ name ++ "' is required."))
    else fieldScan rest

/-- Lines 69-75: the required-field check of a payload. -/
def validate (bankPayload : BankCheckoutPayload) : Option Error :=
  fieldScan (reflectFields bankPayload)

/-! ## fmt: formatting without operands

`fmt.Errorf(format)` called with a format and no operand, as on lines 132 and
140. The functions below follow `(*pp).doPrintf`, `argNumber`, `parseArgNumber`
and `parsenum` of package fmt for an empty operand list: no verb can find an
operand, so every directive other than `%%` is reported in the output. -/

/-- The flag characters skipped after a percent sign. -/
def isFlag (c : Char) : Bool :=
  c == '#' || c == '0' || c == '+' || c == '-' || c == ' '

/-- The flag loop of `doPrintf`: with no operand left, the first character
that is not a flag ends it. -/
def skipFlags : List Char → List Char
  | [] => []
  | c :: cs => if isFlag c then skipFlags cs else c :: cs

/-- The function `tooLarge` of package fmt (its argument is never negative here). -/
def tooLarge (x : Nat) : Bool := decide (1000000 < x)

/-- The loop of `parsenum` over `s[newi:end]`: whether a number was read, and
the text from `newi` on. On overflow `newi` is `end`. -/
def parsenumLoop (num : Nat) (isnum : Bool) : List Char → Bool × List Char
  | [] => (isnum, [])
  | c :: cs =>
    if '0' ≤ c ∧ c ≤ '9' then
      if tooLarge num then (false, [])
      else parsenumLoop (num * 10 + (c.toNat - '0'.toNat)) true cs
    else (isnum, c :: cs)

/-- The function `parsenum` on `s[start:end]`. -/
def parsenum (s : List Char) : Bool × List Char :=
  parsenumLoop 0 false s

/-- Splits a text at its first closing bracket: the text before it and the
text after it. -/
def splitAtBracket : List Char → Option (List Char × List Char)
  | [] => none
  | c :: cs =>
    if c = ']' then some ([], cs)
    else match splitAtBracket cs with
      | none => none
      | some (inner, after) => some (c :: inner, after)

/-- The function `parseArgNumber` on a text that starts with an opening
bracket: the text after the `wid` bytes it covers, and `ok`. -/
def parseArgNumber (format : List Char) : List Char × Bool :=
  if (String.mk format).utf8ByteSize < 3 then (format.drop 1, false)
  else
    match splitAtBracket (format.drop 1) with
    | none => (format.drop 1, false)
    | some (inner, after) =>
      let (ok, rest) := parsenum inner
      if !ok || !rest.isEmpty then (after, false) else (after, true)

/-- The state of one directive while it is read: the text from index `i` on,
`afterIndex` and `p.goodArgNum`. -/
structure Directive where
  rest : List Char
  afterIndex : Bool
  goodArgNum : Bool
  deriving DecidableEq, Repr

/-- The method `argNumber` with `numArgs = 0`: an index in brackets can never
name an operand, so a bracket clears `goodArgNum`. -/
def argNumber (d : Directive) : Directive :=
  match d.rest with
  | '[' :: cs =>
    let (rest, ok) := parseArgNumber ('[' :: cs)
    { rest := rest, afterIndex := ok, goodArgNum := false }
  | _ => { d with afterIndex := false }

/-- The width part of a directive: what is written, and the state after it. -/
def width (d : Directive) : List Char × Directive :=
  match d.rest with
  | '*' :: cs => ("%!(BADWIDTH)".toList, { d with rest := cs, afterIndex := false })
  | _ =>
    let (widPresent, rest) := parsenum d.rest
    ([], { d with rest := rest, goodArgNum := d.goodArgNum && !(d.afterIndex && widPresent) })

/-- The precision part of a directive: what is written, and the state after it.
The guard is `i+1 < end && format[i] == '.'`: a dot that is the last byte of
the format is left in place and read as the verb. -/
def precision (d : Directive) : List Char × Directive :=
  match d.rest with
  | '.' :: c :: cs =>
    let d1 := argNumber { d with rest := c :: cs, goodArgNum := d.goodArgNum && !d.afterIndex }
    match d1.rest with
    | '*' :: cs1 => ("%!(BADPREC)".toList, { d1 with rest := cs1, afterIndex := false })
    | _ => ([], { d1 with rest := (parsenum d1.rest).2 })
  | _ => ([], d)

/-- One directive of `doPrintf`, from the character after the percent sign:
what is written, and the format text left. -/
def directive (afterPercent : List Char) : List Char × List Char :=
  let d0 := argNumber { rest := skipFlags afterPercent, afterIndex := false, goodArgNum := true }
  let (w, d1) := width d0
  let (p, d2) := precision d1
  let d3 := if d2.afterIndex then d2 else argNumber d2
  match d3.rest with
  | [] => (w ++ p ++ "%!(NOVERB)".toList, [])
  | verb :: rest =>
    if verb = '%' then (w ++ p ++ ['%'], rest)
    else if !d3.goodArgNum then (w ++ p ++ "%!".toList ++ [verb] ++ "(BADINDEX)".toList, rest)
    else (w ++ p ++ "%!".toList ++ [verb] ++ "(MISSING)".toList, rest)

/-- The format loop of `doPrintf` with an empty operand list. Each round
copies the text up to the next percent sign and handles one directive; `fuel`
bounds the number of rounds. -/
def doPrintf : Nat → List Char → List Char
  | 0, _ => []
  | fuel + 1, format =>
    match format.span (fun c => c != '%') with
    | (lit, []) => lit
    | (lit, _ :: afterPercent) =>
      let (out, rest) := directive afterPercent
      lit ++ out ++ doPrintf fuel rest

/-- The text of `fmt.Sprintf(format)` with no operand. A round of `doPrintf`
consumes at least the percent sign, so the length of the format bounds the
rounds. -/
def Sprintf (format : String) : String :=
  String.mk (doPrintf (format.length + 1) format.toList)

/-- The error of `fmt.Errorf(format)` with no operand. -/
def Errorf (format : String) : Error :=
  .errorString (Sprintf format)

/-! ## net/http: requests and headers -/

/-- The bytes `validHeaderFieldByte` of package textproto accepts: the token
characters of RFC 7230. -/
def validHeaderFieldByte (c : Char) : Bool :=
  c.isAlphanum ||
    [33, 35, 36, 37, 38, 39, 42, 43, 45, 46, 94, 95, 96, 124, 126].contains c.toNat

/-- The loop of `canonicalMIMEHeaderKey`: a letter is upper case at the start
and after a hyphen, lower case elsewhere. -/
def canonicalLoop (upper : Bool) : List Char → List Char
  | [] => []
  | c :: cs =>
    let c1 := if upper && c.isLower then c.toUpper
      else if !upper && c.isUpper then c.toLower else c
    c1 :: canonicalLoop (c1 == '-') cs

/-- The function `textproto.CanonicalMIMEHeaderKey`: a key with a byte that is
not a token character is returned unchanged. -/
def CanonicalMIMEHeaderKey (s : String) : String :=
  if s.toList.all validHeaderFieldByte then String.mk (canonicalLoop true s.toList) else s

/-- The type `http.Header`: the entries of the map from canonical keys to values. -/
abbrev Header := List (String × List String)

/-- The method `Header.Set`: the entry of the canonical key is replaced by the
single value. -/
def Header.Set (h : Header) (key value : String) : Header :=
  h.filter (fun e => e.1 != CanonicalMIMEHeaderKey key) ++ [(CanonicalMIMEHeaderKey key, [value])]

/-- The method `Header.Get`: the first value of the canonical key, or the
empty string. -/
def Header.Get (h : Header) (key : String) : String :=
  match h.lookup (CanonicalMIMEHeaderKey key) with
  | some (v :: _) => v
  | _ => ""

/-- The parts of an `http.Request` that `BankCheckout` sets. -/
structure Request where
  Method : String
  URL : String
  Header : Header
  Body : String
  deriving DecidableEq, Repr

/-- The parts of an `http.Response` that `BankCheckout` reads: the status code,
and what `io.ReadAll(resp.Body)` returns (the bytes, or the text of a read
error). -/
structure Response where
  StatusCode : Int
  Body : Except String String

/-- The remote error body of a status-400 reply. Its declaration and its
`Error` method are not in bankcheckout.go: a value is held as the message its
`Error` method renders. -/
structure BadRequestError where
  rendered : String
  deriving DecidableEq, Repr

/-- The method `Error` of a decoded `BadRequestError`. -/
def BadRequestError.Error (e : BadRequestError) : String := e.rendered

/-- The remote error body of a status-417 reply. Its declaration and its
`Error` method are not in bankcheckout.go: a value is held as the message its
`Error` method renders. -/
structure Unauthorized where
  rendered : String
  deriving DecidableEq, Repr

/-- The method `Error` of a decoded `Unauthorized`. -/
def Unauthorized.Error (e : Unauthorized) : String := e.rendered

/-- The library calls whose results `BankCheckout` only passes on. A failure is
given by the text of its error. -/
structure Env where
  /-- The call `json.Marshal(bankPayload)`. -/
  Marshal : BankCheckoutPayload → Except String String
  /-- The URL parsing inside `http.NewRequest`: the error, if the URL is rejected. -/
  parseURL : String → Option String
  /-- The call `client.Do(req)`. -/
  Do : Request → Except String Response
  /-- The JSON decoding of a body whose first value is not `null` into a
  `BankCheckoutResponse`. -/
  parseResponse : String → Except String BankCheckoutResponse
  /-- The JSON decoding of a body whose first value is not `null` into a
  `BadRequestError`. -/
  parseBadRequest : String → Except String BadRequestError
  /-- The JSON decoding of a body whose first value is not `null` into an
  `Unauthorized`. -/
  parseUnauthorized : String → Except String Unauthorized
  /-- What `Error()` yields when called through a nil `*BadRequestError`: a text,
  or `none` when the call panics. -/
  nilBadRequest : Option String
  /-- What `Error()` yields when called through a nil `*Unauthorized`: a text, or
  `none` when the call panics. -/
  nilUnauthorized : Option String

/-- The function `http.NewRequest`: the method "POST" is valid, so the call
fails exactly when the URL does not parse; a new request has an empty header. -/
def NewRequest (env : Env) (method url body : String) : Except Error Request :=
  match env.parseURL url with
  | some msg => .error (.external msg)
  | none => .ok { Method := method, URL := url, Header := [], Body := body }

/-! ## encoding/json: decoding one value into a pointer -/

/-- The white space of JSON. -/
def isSpace (c : Char) : Bool :=
  c == ' ' || c == '\t' || c == '\r' || c == '\n'

/-- The call `json.NewDecoder(bytes.NewReader(body)).Decode(&p)` for a nil
pointer `p` to a struct. The decoder skips leading white space and reads one
value: a body without a value gives `io.EOF`; a first value `null` leaves `p`
nil without an error; any other body is parsed, and a failure is an error of
package json. -/
def Decode {α : Type} (parse : String → Except String α) (body : String) :
    Except Error (Option α) :=
  match body.toList.dropWhile isSpace with
  | [] => .error .EOF
  | 'n' :: 'u' :: 'l' :: 'l' :: _ => .ok none
  | _ =>
    match parse body with
    | .error msg => .error (.external msg)
    | .ok v => .ok (some v)

/-! ## BankCheckout -/

/-- How a call of `BankCheckout` ends: it returns its two results, or it panics. -/
inductive Outcome where
  /-- The call returns `(resp, err)`; `none` is nil. -/
  | returned (resp : Option BankCheckoutResponse) (err : Option Error)
  /-- The call panics with a nil pointer dereference. -/
  | panicked
  deriving DecidableEq, Repr

/-- A call of `BankCheckout`: how it ends and the requests it handed to
`client.Do`, in order. -/
structure Run where
  outcome : Outcome
  sent : List Request
  deriving DecidableEq, Repr

/-- Lines 113-145: the outcome for a reply with the given status code and body. -/
def classify (env : Env) (StatusCode : Int) (body : String) : Outcome :=
  if StatusCode = 200 then
    match Decode env.parseResponse body with
    | .error decodeErr =>
      if decodeErr = .EOF then
        .returned none (some (Errorf "(Bank Checkout) Error: Server returned an empty body."))
      else .returned none (some decodeErr)
    | .ok bankResponse => .returned bankResponse none
  else if StatusCode = 400 then
    match Decode env.parseBadRequest body with
    | .error err =>
      .returned none
        (some (.wrapError ("(Bank Checkout) Error decoding badrequest: " ++ err.Error) err))
    | .ok (some badRequest) => .returned none (some (Errorf badRequest.Error))
    | .ok none =>
      match env.nilBadRequest with
      | some text => .returned none (some (Errorf text))
      | none => .panicked
  else if StatusCode = 417 then
    match Decode env.parseUnauthorized body with
    | .error err =>
      .returned none
        (some (.wrapError ("(Bank Checkout) Error decoding unauthorized err: " ++ err.Error) err))
    | .ok (some unauthorized) => .returned none (some (Errorf unauthorized.Error))
    | .ok none =>
      match env.nilUnauthorized with
      | some text => .returned none (some (Errorf text))
      | none => .panicked
  else if StatusCode = 500 then
    .returned none (some (Errorf "(Bank Checkout) Internal Server Error: status code 500"))
  else
    .returned none
      (some (.errorString ("(Bank Checkout) Error: status code " ++ toString StatusCode)))

/-- The function to access the bank checkout endpoint (lines 67-147). -/
def BankCheckout (env : Env) (api : APICONTEXT) (bankPayload : BankCheckoutPayload) : Run :=
  match validate bankPayload with
  | some err => { outcome := .returned none (some err), sent := [] }
  | none =>
    match env.Marshal bankPayload with
    | .error msg => { outcome := .returned none (some (.external msg)), sent := [] }
    | .ok jsonParameters =>
      let url := api.BaseURL ++ "/azampay/bank/checkout"
      match NewRequest env "POST" url jsonParameters with
      | .error _ =>
        -- `req` is nil and line 89 reads `req.Header` before `err` is checked
        { outcome := .panicked, sent := [] }
      | .ok req =>
        let bearer := "Bearer " ++ api.Bearer
        let req1 := { req with Header := req.Header.Set "Authorization" bearer }
        let req2 := { req1 with Header := req1.Header.Set "X-API-KEY" api.token }
        let req3 := { req2 with Header := req2.Header.Set "Content-Type" "application/json" }
        match env.Do req3 with
        | .error msg => { outcome := .returned none (some (.external msg)), sent := [req3] }
        | .ok resp =>
          match resp.Body with
          | .error msg => { outcome := .returned none (some (.external msg)), sent := [req3] }
          | .ok body => { outcome := classify env resp.StatusCode body, sent := [req3] }

/-! ## Vocabulary of the properties -/

/-- The eight string fields of a payload with their Go names, in declaration order. -/
def stringFields (p : BankCheckoutPayload) : List (String × String) :=
  [ ("Amount", p.Amount),
    ("CurrencyCode", p.CurrencyCode),
    ("MerchantAccountNumber", p.MerchantAccountNumber),
    ("MerchantMobileNumber", p.MerchantMobileNumber),
    ("MerchantName", p.MerchantName),
    ("OTP", p.OTP),
    ("Provider", p.Provider),
    ("ReferenceID", p.ReferenceID) ]

/-- The six fields the payload documents as required are all non-empty. -/
def requiredFilled (p : BankCheckoutPayload) : Prop :=
  p.Amount ≠ "" ∧ p.CurrencyCode ≠ "" ∧ p.MerchantAccountNumber ≠ "" ∧
    p.MerchantMobileNumber ≠ "" ∧ p.OTP ≠ "" ∧ p.Provider ≠ ""

/-- All eight string fields of the payload are non-empty. -/
def stringsFilled (p : BankCheckoutPayload) : Prop :=
  requiredFilled p ∧ p.MerchantName ≠ "" ∧ p.ReferenceID ≠ ""

/-- The validation error that names a field. -/
def fieldRequired (name : String) : Error :=
  .errorString ("(Bank Checkout) Error: Field '" ++ name ++ "' is required.")

/-- The request `BankCheckout` builds for a session and a serialized payload. -/
def checkoutRequest (api : APICONTEXT) (jsonParameters : String) : Request :=
  { Method := "POST",
    URL := api.BaseURL ++ "/azampay/bank/checkout",
    Header := [("Authorization", ["Bearer " ++ api.Bearer]), ("X-Api-Key", [api.token]),
      ("Content-Type", ["application/json"])],
    Body := jsonParameters }

/-! ## Sample values -/

/-- The payload of example/main.go. -/
def examplePayload : BankCheckoutPayload :=
  { Amount := "10000", CurrencyCode := "TZS", MerchantAccountNumber := "123321",
    MerchantMobileNumber := "0700000000", MerchantName := "somebody", OTP := "1234",
    Provider := "CRDB", ReferenceID := "123",
    AdditionalProperties := { Property1 := "", Property2 := "" } }

/-- A sample session. -/
def exampleAPI : APICONTEXT :=
  { BaseURL := "https://sandbox.azampay.co.tz", Bearer := "abc", token := "key" }

/-- A sample environment whose transport answers every request with the given
status code and body. URLs with an ASCII control character are rejected, as
net/url does; the stand-in parsers of the error bodies take the body as the
rendered message, and the one of the success body rejects everything. -/
def stubEnv (status : Int) (body : String) : Env :=
  { Marshal := fun p => .ok ("amount=" ++ p.Amount),
    parseURL := fun url =>
      if url.toList.any (fun c => c.toNat < 32 || c.toNat == 127) then
        some "net/url: invalid control character in URL"
      else none,
    Do := fun _ => .ok { StatusCode := status, Body := .ok body },
    parseResponse := fun _ => .error "invalid character",
    parseBadRequest := fun b => .ok { rendered := b },
    parseUnauthorized := fun b => .ok { rendered := b },
    nilBadRequest := none,
    nilUnauthorized := none }

/-! ## The field scan -/

theorem validate_eq (p : BankCheckoutPayload) :
    validate p =
      if p.Amount = "" then some (fieldRequired "Amount")
      else if p.CurrencyCode = "" then some (fieldRequired "CurrencyCode")
      else if p.MerchantAccountNumber = "" then some (fieldRequired "MerchantAccountNumber")
      else if p.MerchantMobileNumber = "" then some (fieldRequired "MerchantMobileNumber")
      else if p.MerchantName = "" then some (fieldRequired "MerchantName")
      else if p.OTP = "" then some (fieldRequired "OTP")
      else if p.Provider = "" then some (fieldRequired "Provider")
      else if p.ReferenceID = "" then some (fieldRequired "ReferenceID")
      else none := by
  have hplace : Value.String (.other "GoAzam.AdditionalProperties") ≠ "" := by decide
  simp only [validate, reflectFields, fieldScan, Value.String, fieldRequired] at hplace ⊢
  simp [hplace]

theorem validate_none_iff (p : BankCheckoutPayload) :
    validate p = none ↔ stringsFilled p := by
  rw [validate_eq]
  unfold stringsFilled requiredFilled
  constructor
  · intro h
    split_ifs at h
    tauto
  · intro h
    obtain ⟨⟨h1, h2, h3, h4, h5, h6⟩, h7, h8⟩ := h
    simp [h1, h2, h3, h4, h5, h6, h7, h8]

/-! ## The format loop never runs out of rounds -/

theorem skipFlags_length (s : List Char) : (skipFlags s).length ≤ s.length := by
  induction s with
  | nil => simp [skipFlags]
  | cons c cs ih =>
    unfold skipFlags
    split
    · exact Nat.le_succ_of_le ih
    · exact Nat.le_refl _

theorem parsenumLoop_length (num : Nat) (isnum : Bool) (s : List Char) :
    (parsenumLoop num isnum s).2.length ≤ s.length := by
  induction s generalizing num isnum with
  | nil => simp [parsenumLoop]
  | cons c cs ih =>
    unfold parsenumLoop
    split
    · split
      · simp
      · exact Nat.le_succ_of_le (ih _ _)
    · exact Nat.le_refl _

theorem splitAtBracket_length (s inner after : List Char)
    (h : splitAtBracket s = some (inner, after)) : after.length < s.length := by
  induction s generalizing inner after with
  | nil => simp [splitAtBracket] at h
  | cons c cs ih =>
    unfold splitAtBracket at h
    split at h
    · simp only [Option.some.injEq, Prod.mk.injEq] at h
      rw [← h.2]
      simp
    · split at h
      · cases h
      · rename_i i a hs
        simp only [Option.some.injEq, Prod.mk.injEq] at h
        rw [← h.2]
        exact Nat.lt_succ_of_lt (ih i a hs)

theorem parseArgNumber_length (c : Char) (cs : List Char) :
    (parseArgNumber (c :: cs)).1.length ≤ cs.length := by
  unfold parseArgNumber
  split
  · simp
  · simp only [List.drop_succ_cons, List.drop_zero]
    split
    · simp
    · rename_i inner after hs
      have := splitAtBracket_length cs inner after hs
      split <;> simp <;> omega

theorem argNumber_length (d : Directive) : (argNumber d).rest.length ≤ d.rest.length := by
  unfold argNumber
  split
  · rename_i cs hr
    rw [hr]
    have := parseArgNumber_length '[' cs
    simp only [List.length_cons]
    omega
  · exact Nat.le_refl _

theorem width_length (d : Directive) : (width d).2.rest.length ≤ d.rest.length := by
  unfold width
  split
  · rename_i cs hr
    simp [hr]
  · exact parsenumLoop_length 0 false d.rest

theorem precision_length (d : Directive) : (precision d).2.rest.length ≤ d.rest.length := by
  unfold precision
  split
  · rename_i c cs hr
    have h1 := argNumber_length
      { d with rest := c :: cs, goodArgNum := d.goodArgNum && !d.afterIndex }
    simp only at h1
    rw [hr]
    dsimp only
    split
    · rename_i cs1 hr1
      rw [hr1] at h1
      simp only [List.length_cons] at h1 ⊢
      omega
    · have h2 := parsenumLoop_length 0 false
        (argNumber { d with rest := c :: cs, goodArgNum := d.goodArgNum && !d.afterIndex }).rest
      simp only [parsenum, List.length_cons] at h1 ⊢
      omega
  · exact Nat.le_refl _

theorem directive_length (s : List Char) : (directive s).2.length ≤ s.length := by
  have h0 := argNumber_length { rest := skipFlags s, afterIndex := false, goodArgNum := true }
  have hs := skipFlags_length s
  have h1 := width_length
    (argNumber { rest := skipFlags s, afterIndex := false, goodArgNum := true })
  have h2 := precision_length
    (width (argNumber { rest := skipFlags s, afterIndex := false, goodArgNum := true })).2
  have h3 := argNumber_length (precision
    (width (argNumber { rest := skipFlags s, afterIndex := false, goodArgNum := true })).2).2
  simp only at h0
  unfold directive
  simp only
  split
  · simp
  · rename_i verb rest hr
    have hlen : rest.length + 1 ≤ s.length := by
      split_ifs at hr with ha
      · have := congrArg List.length hr
        simp only [List.length_cons] at this
        omega
      · have := congrArg List.length hr
        simp only [List.length_cons] at this
        omega
    split_ifs <;> simp only <;> omega

theorem span_length (p : Char → Bool) (s lit r : List Char) (h : s.span p = (lit, r)) :
    lit.length + r.length = s.length := by
  rw [List.span_eq_take_drop] at h
  simp only [Prod.mk.injEq] at h
  rw [← h.1, ← h.2, ← List.length_append, List.takeWhile_append_dropWhile]

/-- Any fuel above the length of the format gives the same text: the loop of
`doPrintf` ends on its own. -/
theorem doPrintf_fuel (n m : Nat) (format : List Char) (hn : format.length < n)
    (hm : format.length < m) : doPrintf n format = doPrintf m format := by
  induction n generalizing m format with
  | zero => omega
  | succ n ih =>
    cases m with
    | zero => omega
    | succ m =>
      unfold doPrintf
      split
      · rfl
      · rename_i lit c afterPercent hsp
        have hl := span_length _ _ _ _ hsp
        have hd := directive_length afterPercent
        simp only [List.length_cons] at hl
        simp only
        rw [ih m (directive afterPercent).2 (by omega) (by omega)]

/-- A format without a percent sign is printed as it is. -/
theorem Sprintf_plain (format : String) (h : ∀ c ∈ format.toList, c ≠ '%') :
    Sprintf format = format := by
  unfold Sprintf doPrintf
  have hsp : List.span (fun c => c != '%') format.toList = (format.toList, []) := by
    rw [List.span_eq_take_drop]
    have h1 : format.toList.takeWhile (fun c => c != '%') = format.toList := by
      rw [List.takeWhile_eq_self_iff]
      intro c hc
      simpa using h c hc
    have h2 : format.toList.dropWhile (fun c => c != '%') = [] := by
      rw [List.dropWhile_eq_nil_iff]
      intro c hc
      simpa using h c hc
    rw [h1, h2]
  simp only [hsp]
  rfl

/-! ## The run up to the reply -/

theorem Sprintf_emptyBody :
    Sprintf "(Bank Checkout) Error: Server returned an empty body." =
      "(Bank Checkout) Error: Server returned an empty body." := by
  decide

theorem Sprintf_internalServerError :
    Sprintf "(Bank Checkout) Internal Server Error: status code 500" =
      "(Bank Checkout) Internal Server Error: status code 500" := by
  decide

theorem builtRequest (env : Env) (api : APICONTEXT) (j : String)
    (hu : env.parseURL (api.BaseURL ++ "/azampay/bank/checkout") = none) :
    NewRequest env "POST" (api.BaseURL ++ "/azampay/bank/checkout") j =
      .ok { Method := "POST", URL := api.BaseURL ++ "/azampay/bank/checkout", Header := [],
            Body := j } := by
  simp [NewRequest, hu]

theorem headers_set (bearer token : String) :
    Header.Set (Header.Set (Header.Set [] "Authorization" bearer) "X-API-KEY" token)
        "Content-Type" "application/json" =
      [("Authorization", [bearer]), ("X-Api-Key", [token]),
        ("Content-Type", ["application/json"])] := by
  have h1 : CanonicalMIMEHeaderKey "Authorization" = "Authorization" := by decide
  have h2 : CanonicalMIMEHeaderKey "X-API-KEY" = "X-Api-Key" := by decide
  have h3 : CanonicalMIMEHeaderKey "Content-Type" = "Content-Type" := by decide
  simp [Header.Set, h1, h2, h3]

theorem bankCheckout_do (env : Env) (api : APICONTEXT) (p : BankCheckoutPayload) (j : String)
    (hp : stringsFilled p) (hm : env.Marshal p = .ok j)
    (hu : env.parseURL (api.BaseURL ++ "/azampay/bank/checkout") = none) :
    BankCheckout env api p =
      match env.Do (checkoutRequest api j) with
      | .error msg =>
        { outcome := .returned none (some (.external msg)), sent := [checkoutRequest api j] }
      | .ok resp =>
        match resp.Body with
        | .error msg =>
          { outcome := .returned none (some (.external msg)), sent := [checkoutRequest api j] }
        | .ok body =>
          { outcome := classify env resp.StatusCode body, sent := [checkoutRequest api j] } := by
  have hv := (validate_none_iff p).2 hp
  simp only [BankCheckout, hv, hm, builtRequest env api j hu, headers_set, checkoutRequest]

theorem bankCheckout_reply (env : Env) (api : APICONTEXT) (p : BankCheckoutPayload)
    (j body : String) (resp : Response)
    (hp : stringsFilled p) (hm : env.Marshal p = .ok j)
    (hu : env.parseURL (api.BaseURL ++ "/azampay/bank/checkout") = none)
    (hd : env.Do (checkoutRequest api j) = .ok resp) (hb : resp.Body = .ok body) :
    BankCheckout env api p =
      { outcome := classify env resp.StatusCode body, sent := [checkoutRequest api j] } := by
  rw [bankCheckout_do env api p j hp hm hu]
  simp only [hd, hb]

/-! ## Validation -/

/-- C1: when at least one of the six required fields (Amount, CurrencyCode,
MerchantAccountNumber, MerchantMobileNumber, OTP, Provider) is the empty
string, `BankCheckout` returns no response and a "field required" validation
error that names a field of the payload, and no request reaches the transport. -/
theorem bankCheckout_required_empty (env : Env) (api : APICONTEXT) (p : BankCheckoutPayload)
    (h : p.Amount = "" ∨ p.CurrencyCode = "" ∨ p.MerchantAccountNumber = "" ∨
      p.MerchantMobileNumber = "" ∨ p.OTP = "" ∨ p.Provider = "") :
    ∃ name, name ∈ (stringFields p).map Prod.fst ∧
      BankCheckout env api p =
        { outcome := .returned none
            (some (.errorString ("(Bank Checkout) Error: Field '" ++ name ++ "' is required."))),
          sent := [] } := by
  have hv := validate_eq p
  unfold BankCheckout
  split_ifs at hv with h1 h2 h3 h4 h5 h6 h7 h8
  · exact ⟨"Amount", by simp [stringFields], by rw [hv]; rfl⟩
  · exact ⟨"CurrencyCode", by simp [stringFields], by rw [hv]; rfl⟩
  · exact ⟨"MerchantAccountNumber", by simp [stringFields], by rw [hv]; rfl⟩
  · exact ⟨"MerchantMobileNumber", by simp [stringFields], by rw [hv]; rfl⟩
  · exact ⟨"MerchantName", by simp [stringFields], by rw [hv]; rfl⟩
  · exact ⟨"OTP", by simp [stringFields], by rw [hv]; rfl⟩
  · exact ⟨"Provider", by simp [stringFields], by rw [hv]; rfl⟩
  · exact ⟨"ReferenceID", by simp [stringFields], by rw [hv]; rfl⟩
  · tauto

theorem bankCheckout_required_empty_witness :
    ({ examplePayload with OTP := "" } : BankCheckoutPayload).OTP = "" ∧
    ∃ name, name ∈ (stringFields { examplePayload with OTP := "" }).map Prod.fst ∧
      BankCheckout (stubEnv 200 "") exampleAPI { examplePayload with OTP := "" } =
        { outcome := .returned none
            (some (.errorString ("(Bank Checkout) Error: Field '" ++ name ++ "' is required."))),
          sent := [] } :=
  ⟨rfl, bankCheckout_required_empty (stubEnv 200 "") exampleAPI { examplePayload with OTP := "" }
    (Or.inr (Or.inr (Or.inr (Or.inr (Or.inl rfl)))))⟩

/-- C2, at the failing input: a payload whose six required fields are filled
and whose optional MerchantName is empty does not reach the network stage; the
scan rejects it with the error naming MerchantName, and nothing is sent. -/
theorem bankCheckout_empty_merchantName (env : Env) (api : APICONTEXT) :
    requiredFilled { examplePayload with MerchantName := "" } ∧
    BankCheckout env api { examplePayload with MerchantName := "" } =
      { outcome := .returned none
          (some (.errorString "(Bank Checkout) Error: Field 'MerchantName' is required.")),
        sent := [] } := by
  refine ⟨by unfold requiredFilled; decide, ?_⟩
  have hv : validate { examplePayload with MerchantName := "" } =
      some (fieldRequired "MerchantName") := by decide
  simp only [BankCheckout, hv]
  rfl

/-- C9: when validation fails, its error names exactly one field, the first of
the eight string fields in declaration order whose value is empty, its text is
"(Bank Checkout) Error: Field '<Name>' is required." with the Go name of that
field, and `BankCheckout` returns this error, no response, and sends nothing. -/
theorem validate_names_first_empty (env : Env) (api : APICONTEXT) (p : BankCheckoutPayload)
    (err : Error) (h : validate p = some err) :
    ∃ before name after,
      stringFields p = before ++ (name, "") :: after ∧
      (∀ f ∈ before, f.2 ≠ "") ∧
      err.Error = "(Bank Checkout) Error: Field '" ++ name ++ "' is required." ∧
      BankCheckout env api p = { outcome := .returned none (some err), sent := [] } := by
  have hrun : BankCheckout env api p = { outcome := .returned none (some err), sent := [] } := by
    simp only [BankCheckout, h]
  rw [validate_eq] at h
  split_ifs at h with h1 h2 h3 h4 h5 h6 h7 h8 <;> simp only [Option.some.injEq] at h <;>
    subst h
  · exact ⟨[], "Amount", (stringFields p).drop 1, by simp [stringFields, h1], by simp, rfl, hrun⟩
  · exact ⟨(stringFields p).take 1, "CurrencyCode", (stringFields p).drop 2,
      by simp [stringFields, h2], by simp [stringFields, h1], rfl, hrun⟩
  · exact ⟨(stringFields p).take 2, "MerchantAccountNumber", (stringFields p).drop 3,
      by simp [stringFields, h3], by simp [stringFields, h1, h2], rfl, hrun⟩
  · exact ⟨(stringFields p).take 3, "MerchantMobileNumber", (stringFields p).drop 4,
      by simp [stringFields, h4], by simp [stringFields, h1, h2, h3], rfl, hrun⟩
  · exact ⟨(stringFields p).take 4, "MerchantName", (stringFields p).drop 5,
      by simp [stringFields, h5], by simp [stringFields, h1, h2, h3, h4], rfl, hrun⟩
  · exact ⟨(stringFields p).take 5, "OTP", (stringFields p).drop 6,
      by simp [stringFields, h6], by simp [stringFields, h1, h2, h3, h4, h5], rfl, hrun⟩
  · exact ⟨(stringFields p).take 6, "Provider", (stringFields p).drop 7,
      by simp [stringFields, h7], by simp [stringFields, h1, h2, h3, h4, h5, h6], rfl, hrun⟩
  · exact ⟨(stringFields p).take 7, "ReferenceID", [],
      by simp [stringFields, h8], by simp [stringFields, h1, h2, h3, h4, h5, h6, h7], rfl, hrun⟩

theorem validate_names_first_empty_witness :
    validate { examplePayload with MerchantAccountNumber := "", Provider := "" } =
      some (fieldRequired "MerchantAccountNumber") ∧
    ∃ before name after,
      stringFields { examplePayload with MerchantAccountNumber := "", Provider := "" } =
        before ++ (name, "") :: after ∧
      (∀ f ∈ before, f.2 ≠ "") ∧
      (fieldRequired "MerchantAccountNumber").Error =
        "(Bank Checkout) Error: Field '" ++ name ++ "' is required." ∧
      BankCheckout (stubEnv 200 "") exampleAPI
          { examplePayload with MerchantAccountNumber := "", Provider := "" } =
        { outcome := .returned none (some (fieldRequired "MerchantAccountNumber")), sent := [] } :=
  ⟨by decide, validate_names_first_empty (stubEnv 200 "") exampleAPI
    { examplePayload with MerchantAccountNumber := "", Provider := "" }
    (fieldRequired "MerchantAccountNumber") (by decide)⟩

/-- C10: the field scan never rejects a payload because of AdditionalProperties:
when the eight string fields are non-empty, validation passes for every value
of the nested field, its zero value included, because the scan reads that field
as the non-empty placeholder "<GoAzam.AdditionalProperties Value>". -/
theorem validate_ignores_additionalProperties (p : BankCheckoutPayload)
    (ap : AdditionalProperties) (h : stringsFilled p) :
    validate { p with AdditionalProperties := ap } = none ∧
    validate { p with AdditionalProperties := { Property1 := "", Property2 := "" } } = none ∧
    ∃ v, ("AdditionalProperties", v) ∈ reflectFields { p with AdditionalProperties := ap } ∧
      v.String = "<GoAzam.AdditionalProperties Value>" ∧ v.String ≠ "" := by
  refine ⟨(validate_none_iff _).2 h, (validate_none_iff _).2 h, ?_⟩
  refine ⟨.other "GoAzam.AdditionalProperties", by simp [reflectFields], by decide, by decide⟩

theorem validate_ignores_additionalProperties_witness :
    stringsFilled examplePayload ∧
    validate { examplePayload with
      AdditionalProperties := { Property1 := "Something", Property2 := "" } } = none ∧
    validate { examplePayload with
      AdditionalProperties := { Property1 := "", Property2 := "" } } = none ∧
    ∃ v, ("AdditionalProperties", v) ∈ reflectFields { examplePayload with
        AdditionalProperties := { Property1 := "Something", Property2 := "" } } ∧
      v.String = "<GoAzam.AdditionalProperties Value>" ∧ v.String ≠ "" :=
  ⟨by unfold stringsFilled requiredFilled; decide,
    validate_ignores_additionalProperties examplePayload
      { Property1 := "Something", Property2 := "" }
      (by unfold stringsFilled requiredFilled; decide)⟩

/-! ## The request -/

/-- C8: for every session and every payload that passes validation (and whose
serialization and request construction succeed), `BankCheckout` hands exactly
one request to the transport: a POST to the base URL followed by
"/azampay/bank/checkout", whose header holds exactly Authorization = "Bearer "
followed by the bearer token, X-API-KEY = the API key and Content-Type =
"application/json", and whose body is the JSON serialization of the payload. -/
theorem bankCheckout_request (env : Env) (api : APICONTEXT) (p : BankCheckoutPayload)
    (j : String) (hp : validate p = none) (hm : env.Marshal p = .ok j)
    (hu : env.parseURL (api.BaseURL ++ "/azampay/bank/checkout") = none) :
    ∃ req, (BankCheckout env api p).sent = [req] ∧
      req.Method = "POST" ∧
      req.URL = api.BaseURL ++ "/azampay/bank/checkout" ∧
      req.Header.length = 3 ∧
      req.Header.Get "Authorization" = "Bearer " ++ api.Bearer ∧
      req.Header.Get "X-API-KEY" = api.token ∧
      req.Header.Get "Content-Type" = "application/json" ∧
      req.Body = j := by
  refine ⟨checkoutRequest api j, ?_, rfl, rfl, rfl, ?_, ?_, ?_, rfl⟩
  · rw [bankCheckout_do env api p j ((validate_none_iff p).1 hp) hm hu]
    split
    · rfl
    · split <;> rfl
  · have h1 : CanonicalMIMEHeaderKey "Authorization" = "Authorization" := by decide
    simp [Header.Get, checkoutRequest, h1, List.lookup]
  · have h2 : CanonicalMIMEHeaderKey "X-API-KEY" = "X-Api-Key" := by decide
    simp [Header.Get, checkoutRequest, h2, List.lookup]
  · have h3 : CanonicalMIMEHeaderKey "Content-Type" = "Content-Type" := by decide
    simp [Header.Get, checkoutRequest, h3, List.lookup]

theorem bankCheckout_request_witness :
    validate examplePayload = none ∧
    ∃ req, (BankCheckout (stubEnv 200 "") exampleAPI examplePayload).sent = [req] ∧
      req.Method = "POST" ∧
      req.URL = exampleAPI.BaseURL ++ "/azampay/bank/checkout" ∧
      req.Header.length = 3 ∧
      req.Header.Get "Authorization" = "Bearer " ++ exampleAPI.Bearer ∧
      req.Header.Get "X-API-KEY" = exampleAPI.token ∧
      req.Header.Get "Content-Type" = "application/json" ∧
      req.Body = "amount=10000" :=
  ⟨by decide, bankCheckout_request (stubEnv 200 "") exampleAPI examplePayload "amount=10000"
    (by decide) rfl (by decide)⟩

/-- C5, at the failing input: when the construction of the request fails
because the URL does not parse, `BankCheckout` does not return the
construction error: it reads the header of the nil request before the error is
checked and panics. -/
theorem bankCheckout_bad_url_panics (env : Env) (api : APICONTEXT) (p : BankCheckoutPayload)
    (j msg : String) (hp : validate p = none) (hm : env.Marshal p = .ok j)
    (hu : env.parseURL (api.BaseURL ++ "/azampay/bank/checkout") = some msg) :
    NewRequest env "POST" (api.BaseURL ++ "/azampay/bank/checkout") j = .error (.external msg) ∧
    BankCheckout env api p = { outcome := .panicked, sent := [] } := by
  have hn : NewRequest env "POST" (api.BaseURL ++ "/azampay/bank/checkout") j =
      .error (.external msg) := by
    simp [NewRequest, hu]
  exact ⟨hn, by simp only [BankCheckout, hp, hm, hn]⟩

theorem bankCheckout_bad_url_panics_witness :
    validate examplePayload = none ∧
    NewRequest (stubEnv 200 "") "POST" ("https://sandbox.azampay.co.tz\n/azampay/bank/checkout")
      "amount=10000" = .error (.external "net/url: invalid control character in URL") ∧
    BankCheckout (stubEnv 200 "") { exampleAPI with BaseURL := "https://sandbox.azampay.co.tz\n" }
      examplePayload = { outcome := .panicked, sent := [] } :=
  ⟨by decide, bankCheckout_bad_url_panics (stubEnv 200 "")
    { exampleAPI with BaseURL := "https://sandbox.azampay.co.tz\n" } examplePayload
    "amount=10000" "net/url: invalid control character in URL" (by decide) rfl
    (by decide)⟩

/-! ## The reply -/

/-- C3, at the failing input: for a payload that passes validation and a reply
with status 200 whose body is the JSON value `null`, `BankCheckout` returns a
nil response together with a nil error. -/
theorem bankCheckout_null_body (env : Env) (api : APICONTEXT) (p : BankCheckoutPayload)
    (j : String) (resp : Response) (hp : validate p = none) (hm : env.Marshal p = .ok j)
    (hu : env.parseURL (api.BaseURL ++ "/azampay/bank/checkout") = none)
    (hd : env.Do (checkoutRequest api j) = .ok resp) (hs : resp.StatusCode = 200)
    (hb : resp.Body = .ok "null") :
    (BankCheckout env api p).outcome = .returned none none := by
  rw [bankCheckout_reply env api p j "null" resp ((validate_none_iff p).1 hp) hm hu hd hb, hs]
  have hdec : Decode env.parseResponse "null" = .ok none := by
    have : "null".toList.dropWhile isSpace = ['n', 'u', 'l', 'l'] := by decide
    simp only [Decode, this]
  simp only [classify, hdec, if_true]

theorem bankCheckout_null_body_witness :
    validate examplePayload = none ∧
    (BankCheckout (stubEnv 200 "null") exampleAPI examplePayload).outcome = .returned none none :=
  ⟨by decide, bankCheckout_null_body (stubEnv 200 "null") exampleAPI examplePayload
    "amount=10000" { StatusCode := 200, Body := .ok "null" } (by decide) rfl (by decide) rfl rfl
    rfl⟩

/-- C4, at the failing input: for a reply with status 400 whose body decodes
into a `BadRequestError` that renders the message "limit 100%", the error
`BankCheckout` returns does not have that text: the message is used as a
format, and the text is "limit 100%!(NOVERB)". -/
theorem bankCheckout_badRequest_percent (env : Env) (api : APICONTEXT)
    (p : BankCheckoutPayload) (j body : String) (resp : Response) (e : BadRequestError)
    (hp : validate p = none) (hm : env.Marshal p = .ok j)
    (hu : env.parseURL (api.BaseURL ++ "/azampay/bank/checkout") = none)
    (hd : env.Do (checkoutRequest api j) = .ok resp) (hs : resp.StatusCode = 400)
    (hb : resp.Body = .ok body) (he : Decode env.parseBadRequest body = .ok (some e))
    (hr : e.Error = "limit 100%") :
    ∃ err, (BankCheckout env api p).outcome = .returned none (some err) ∧
      err.Error = "limit 100%!(NOVERB)" ∧ err.Error ≠ e.Error := by
  rw [bankCheckout_reply env api p j body resp ((validate_none_iff p).1 hp) hm hu hd hb, hs]
  have h400 : (400 : Int) ≠ 200 := by decide
  have hfmt : Sprintf "limit 100%" = "limit 100%!(NOVERB)" := by decide
  refine ⟨.errorString "limit 100%!(NOVERB)", ?_, rfl, ?_⟩
  · simp only [classify, he, hr, Errorf, hfmt, if_neg h400, if_true]
  · rw [hr]
    decide

theorem bankCheckout_badRequest_percent_witness :
    validate examplePayload = none ∧
    ∃ err, (BankCheckout (stubEnv 400 "limit 100%") exampleAPI examplePayload).outcome =
        .returned none (some err) ∧
      err.Error = "limit 100%!(NOVERB)" ∧
      err.Error ≠ BadRequestError.Error { rendered := "limit 100%" } :=
  ⟨by decide, bankCheckout_badRequest_percent (stubEnv 400 "limit 100%") exampleAPI
    examplePayload "amount=10000" "limit 100%" { StatusCode := 400, Body := .ok "limit 100%" }
    { rendered := "limit 100%" } (by decide) rfl (by decide) rfl rfl rfl rfl rfl⟩

/-- C6 as stated fails at two bodies of a status-200 reply that are not JSON.
The body "\n" is not empty and holds no value: the decoder's error is `io.EOF`,
and `BankCheckout` returns the empty-body error in its place. The body "nullx"
is not JSON either: the decoder reads the value `null`, reports no error, and
`BankCheckout` returns no error at all. -/
theorem bankCheckout_status200_not_json :
    "\n" ≠ "" ∧
    Decode (stubEnv 200 "\n").parseResponse "\n" = .error .EOF ∧
    (BankCheckout (stubEnv 200 "\n") exampleAPI examplePayload).outcome =
      .returned none
        (some (.errorString "(Bank Checkout) Error: Server returned an empty body.")) ∧
    (BankCheckout (stubEnv 200 "\n") exampleAPI examplePayload).outcome ≠
      .returned none (some .EOF) ∧
    Decode (stubEnv 200 "nullx").parseResponse "nullx" = .ok none ∧
    (BankCheckout (stubEnv 200 "nullx") exampleAPI examplePayload).outcome =
      .returned none none := by
  refine ⟨by decide, rfl, ?_, ?_, rfl, ?_⟩ <;> decide

/-- C6, amended: for a payload that passes validation and a reply with status
200, a body that holds no JSON value (zero bytes, or JSON white space only)
makes `BankCheckout` return no response and the error
"(Bank Checkout) Error: Server returned an empty body."; a body with a
non-space byte on which the decoder reports an error makes it return no
response and that error unchanged. -/
theorem bankCheckout_status200_failures (env : Env) (api : APICONTEXT)
    (p : BankCheckoutPayload) (j body : String) (resp : Response)
    (hp : validate p = none) (hm : env.Marshal p = .ok j)
    (hu : env.parseURL (api.BaseURL ++ "/azampay/bank/checkout") = none)
    (hd : env.Do (checkoutRequest api j) = .ok resp) (hs : resp.StatusCode = 200)
    (hb : resp.Body = .ok body) :
    ((∀ c ∈ body.toList, isSpace c = true) →
      (BankCheckout env api p).outcome =
        .returned none
          (some (.errorString "(Bank Checkout) Error: Server returned an empty body."))) ∧
    (∀ decodeErr, (∃ c ∈ body.toList, isSpace c = false) →
      Decode env.parseResponse body = .error decodeErr →
      (BankCheckout env api p).outcome = .returned none (some decodeErr)) := by
  rw [bankCheckout_reply env api p j body resp ((validate_none_iff p).1 hp) hm hu hd hb, hs]
  constructor
  · intro h0
    have hblank : body.toList.dropWhile isSpace = [] := List.dropWhile_eq_nil_iff.2 h0
    have hdec : Decode env.parseResponse body = .error .EOF := by
      simp only [Decode, hblank]
    simp only [classify, hdec, Errorf, Sprintf_emptyBody, if_true]
  · intro decodeErr hne hdec
    have hrest : body.toList.dropWhile isSpace ≠ [] := by
      intro hnil
      obtain ⟨c, hc, hsp⟩ := hne
      have := List.dropWhile_eq_nil_iff.1 hnil c hc
      rw [hsp] at this
      cases this
    have hneof : decodeErr ≠ .EOF := by
      intro heof
      subst heof
      unfold Decode at hdec
      split at hdec
      · contradiction
      · cases hdec
      · split at hdec <;> cases hdec
    simp only [classify, hdec, if_true, if_neg hneof]

theorem bankCheckout_status200_failures_witness :
    validate examplePayload = none ∧
    (BankCheckout (stubEnv 200 "") exampleAPI examplePayload).outcome =
      .returned none
        (some (.errorString "(Bank Checkout) Error: Server returned an empty body.")) ∧
    (BankCheckout (stubEnv 200 " \r\n") exampleAPI examplePayload).outcome =
      .returned none
        (some (.errorString "(Bank Checkout) Error: Server returned an empty body.")) ∧
    (BankCheckout (stubEnv 200 "<html>") exampleAPI examplePayload).outcome =
      .returned none (some (.external "invalid character")) :=
  ⟨by decide,
    (bankCheckout_status200_failures (stubEnv 200 "") exampleAPI examplePayload
      "amount=10000" "" { StatusCode := 200, Body := .ok "" } (by decide) rfl (by decide) rfl rfl
      rfl).1 (by decide),
    (bankCheckout_status200_failures (stubEnv 200 " \r\n") exampleAPI examplePayload
      "amount=10000" " \r\n" { StatusCode := 200, Body := .ok " \r\n" } (by decide) rfl
      (by decide) rfl rfl rfl).1 (by decide),
    (bankCheckout_status200_failures (stubEnv 200 "<html>") exampleAPI examplePayload
      "amount=10000" "<html>" { StatusCode := 200, Body := .ok "<html>" } (by decide) rfl
      (by decide) rfl rfl rfl).2 (.external "invalid character") (by decide) rfl⟩

/-- C7: for a payload that passes validation, every status code other than 200,
400 and 417 and every body, the outcome of `BankCheckout` is fixed by the
status code: no response, and the error whose message is
"(Bank Checkout) Internal Server Error: status code 500" for the code 500 and
"(Bank Checkout) Error: status code " followed by the decimal numeral of the
code otherwise. -/
theorem bankCheckout_other_status (env : Env) (api : APICONTEXT) (p : BankCheckoutPayload)
    (j body : String) (resp : Response)
    (hp : validate p = none) (hm : env.Marshal p = .ok j)
    (hu : env.parseURL (api.BaseURL ++ "/azampay/bank/checkout") = none)
    (hd : env.Do (checkoutRequest api j) = .ok resp) (hb : resp.Body = .ok body)
    (h200 : resp.StatusCode ≠ 200) (h400 : resp.StatusCode ≠ 400)
    (h417 : resp.StatusCode ≠ 417) :
    (BankCheckout env api p).outcome =
      .returned none (some (.errorString
        (if resp.StatusCode = 500 then "(Bank Checkout) Internal Server Error: status code 500"
         else "(Bank Checkout) Error: status code " ++ toString resp.StatusCode))) := by
  rw [bankCheckout_reply env api p j body resp ((validate_none_iff p).1 hp) hm hu hd hb]
  simp only [classify, if_neg h200, if_neg h400, if_neg h417]
  by_cases h500 : resp.StatusCode = 500
  · simp only [if_pos h500, Errorf, Sprintf_internalServerError]
  · simp only [if_neg h500]

theorem bankCheckout_other_status_witness :
    validate examplePayload = none ∧
    (BankCheckout (stubEnv 503 "Service Unavailable") exampleAPI examplePayload).outcome =
      .returned none (some (.errorString "(Bank Checkout) Error: status code 503")) :=
  ⟨by decide, bankCheckout_other_status (stubEnv 503 "Service Unavailable") exampleAPI
    examplePayload "amount=10000" "Service Unavailable"
    { StatusCode := 503, Body := .ok "Service Unavailable" } (by decide) rfl (by decide) rfl rfl
    (by decide) (by decide) (by decide)⟩

end GoAzam
